import Mathlib

/-!
Shallow embedding of the synchronization core of `matrix-influx`
(`src/matrix_influx/matrix_to_influx.py`, class `MatrixInfluxBridge`, with the
InfluxDB record builder of `src/src/matrix_to_influx.py` embedded where a claim
cites it).

Conventions of the embedding:
* Python `dict` values of heterogeneous type (the values of
  `self.room_sync_times`, which the code never inspects beyond truthiness and
  `str(...)`) are modelled by a `Json` value type; a Python dict is an
  association list with unique keys in insertion order.
* The resume-state file is modelled by `FileState`: absent, unparsable, or
  holding a parsed JSON document.  `json.dump`/`json.load` of the standard
  library are taken as inverse at the JSON-value level (the file stores the
  `Json` value); `json.load` raising `JSONDecodeError` is the `corrupt` state.
* `datetime.fromtimestamp(ms / 1000, tz=timezone.utc)` is represented by the
  millisecond integer `ms` it is computed from (the conversion itself is the
  standard library's concern); `created_at` (a wall-clock default of the ORM
  column) is not modelled.
* Exceptions are `Except PyExc`; the network call `room_messages` is an oracle
  `Server` that may return a `RoomMessagesResponse`, a non-success response
  object, or raise.
-/

/-- JSON values as produced by Python's `json` module for this program's file
(numbers restricted to integers: the only numbers this system ever writes or
reads here are epoch-millisecond stamps). -/
inductive Json where
  | jnull : Json
  | jstr  : String → Json
  | jnum  : Int → Json
  | jarr  : List Json → Json
  | jobj  : List (String × Json) → Json
  deriving Repr

/-- Python truthiness of a JSON value (`if not last_sync`). -/
def jsonTruthy : Json → Bool
  | Json.jnull   => false
  | Json.jstr s  => !s.isEmpty
  | Json.jnum n  => n != 0
  | Json.jarr xs => !xs.isEmpty
  | Json.jobj kvs => !kvs.isEmpty

/-- Python `str(...)` on a JSON value.  The container cases abstract CPython's
repr; they are unreachable for any file this program itself wrote. -/
def pyStr : Json → String
  | Json.jnull   => "None"
  | Json.jstr s  => s
  | Json.jnum n  => toString n
  | Json.jarr _  => "[...]"
  | Json.jobj _  => "\x7b...\x7d"

/-- The sync-state mapping `self.room_sync_times` : a Python dict from room id
to an opaque stored value (insertion-ordered association list). -/
abbrev SyncMap := List (String × Json)

/-- Python `d.get(k)` (first binding; Python dicts have unique keys). -/
def dictGet (m : SyncMap) (k : String) : Option Json :=
  m.lookup k

/-- Python `d[k] = v`: replace in place if the key exists, else append. -/
def dictSet (m : SyncMap) (k : String) (v : Json) : SyncMap :=
  if (m.lookup k).isSome then
    m.map (fun kv => if kv.1 = k then (k, v) else kv)
  else
    m ++ [(k, v)]

/-- Exceptions the embedded code can raise or catch. -/
inductive PyExc where
  | fileNotFoundError : PyExc
  | jsonDecodeError : PyExc
  | attributeError : PyExc
  | matrixError : String → PyExc
  deriving Repr, DecidableEq

/-- Levels of the records emitted through `logger`. -/
inductive LogLevel where
  | debug : LogLevel
  | info : LogLevel
  | warning : LogLevel
  | error : LogLevel
  deriving Repr, DecidableEq

/-- State of the resume-state file named by `settings.sync_state_file`:
missing (`open` raises `FileNotFoundError`), unparsable (`json.load` raises
`JSONDecodeError`), or holding a parsed JSON document. -/
inductive FileState where
  | missing : FileState
  | corrupt : FileState
  | contents : Json → FileState
  deriving Repr

/-- `MatrixInfluxBridge.save_sync_state`: overwrite the file with
`json.dump(self.room_sync_times, f)`. -/
def save_sync_state (m : SyncMap) : FileState :=
  FileState.contents (Json.jobj m)

/-- `MatrixInfluxBridge.load_sync_state`: `json.load` the file and rebuild the
mapping with the identity comprehension `{room: ts for room, ts in
state.items()}`, logging one info line per entry; `FileNotFoundError` is
caught with an info line, `json.JSONDecodeError` with a warning, both yielding
the empty mapping.  A parsed document that is not an object makes
`state.items()` raise `AttributeError`, which nothing catches. -/
def load_sync_state (f : FileState) : Except PyExc (SyncMap × List LogLevel) :=
  match f with
  | FileState.missing => Except.ok ([], [LogLevel.info])
  | FileState.corrupt => Except.ok ([], [LogLevel.warning])
  | FileState.contents j =>
    match j with
    | Json.jobj kvs => Except.ok (kvs, kvs.map (fun _ => LogLevel.info))
    | _ => Except.error PyExc.attributeError

/-- `MatrixInfluxBridge.__init__` (lines 37-40): the monitored room set is the
explicit configured list if non-empty (Python truthiness of a list), else the
keys of the client's room dict at construction time. -/
def monitoredRooms (room_ids : List String) (clientRooms : List String) :
    Finset String :=
  if room_ids.isEmpty then clientRooms.toFinset else room_ids.toFinset

/-- A `nio.RoomMessageText` event as this code accesses it: the attributes
`sender`, `body`, `server_timestamp`, and the raw `source` dict, of which the
code reads only `source.get("sender", ...)` and
`source.get("origin_server_ts", ...)` (each `none` when the key is absent). -/
structure MEvent where
  sender : String
  body : String
  server_timestamp : Int
  src_sender : Option String
  src_origin_server_ts : Option Int
  deriving Repr, DecidableEq

/-- An event of a room timeline: a text message or any other event kind
(membership, reaction, ...), distinguished by the code's
`isinstance(event, RoomMessageText)` checks. -/
inductive REvent where
  | text : MEvent → REvent
  | nonText : String → REvent
  deriving Repr, DecidableEq

/-- `event.source.get("sender", event.sender)`. -/
def eventSender (e : MEvent) : String :=
  e.src_sender.getD e.sender

/-- `event.source.get("origin_server_ts", event.server_timestamp)`: the
millisecond stamp the stored timestamp is computed from. -/
def eventOriginTs (e : MEvent) : Int :=
  e.src_origin_server_ts.getD e.server_timestamp

/-- A row of the `matrix_messages` table (`src/src/schema.py`, class
`Message`); `timestampMs` stands for the `timestamp` column through the
convention on `datetime.fromtimestamp` above, and the `id`/`created_at`
columns (ORM-side defaults) are not modelled. -/
structure Message where
  room_id : String
  sender : String
  message_type : String
  content : Option String
  content_length : Nat
  timestampMs : Int
  deriving Repr, DecidableEq

/-- The body of `MatrixInfluxBridge.store_message_in_db`: the row committed
for one message, with `content` kept only under
`settings.postgres.store_content`. -/
def store_message_in_db (store_content : Bool) (room_id sender message : String)
    (timestampMs : Int) (message_type : String) : Message :=
  { room_id := room_id
    sender := sender
    message_type := message_type
    content := if store_content then some message else none
    content_length := message.length
    timestampMs := timestampMs }

/-- A field value of an InfluxDB point (`src/src/matrix_to_influx.py`). -/
inductive FieldVal where
  | s : String → FieldVal
  | i : Int → FieldVal
  deriving Repr, DecidableEq

/-- An InfluxDB `Point` as built by `src/src/matrix_to_influx.py`. -/
structure InfluxPoint where
  measurement : String
  tags : List (String × String)
  fields : List (String × FieldVal)
  timeMs : Int
  deriving Repr, DecidableEq

/-- The point built per text event in `fetch_historical_messages` (and
identically in `handle_message`) of `src/src/matrix_to_influx.py`: tags for
sender/room/type, `content` field only under
`settings.influxdb.store_content`, `content_length` field always. -/
def buildInfluxPoint (store_content : Bool) (room_id : String) (e : MEvent) :
    InfluxPoint :=
  { measurement := "matrix_message"
    tags := [("sender", eventSender e), ("room_id", room_id),
             ("message_type", "RoomMessageText")]
    fields :=
      (if store_content then [("content", FieldVal.s e.body)] else []) ++
        [("content_length", FieldVal.i (Int.ofNat e.body.length))]
    timeMs := eventOriginTs e }

/-- The mutable state of a `MatrixInfluxBridge` run together with the two
external stores it writes: the resume-state file and the message table.
`store_content` is the immutable `settings.postgres.store_content` flag. -/
structure BridgeState where
  store_content : Bool
  room_sync_times : SyncMap
  last_sync_time : Option Int
  file : FileState
  db : List Message

/-- `save_sync_state` as the state transition it is: rewrite the file from the
current `room_sync_times` (nothing else is written to it). -/
def saveSyncStateS (st : BridgeState) : BridgeState :=
  { st with file := save_sync_state st.room_sync_times }

/-- `MatrixInfluxBridge.handle_message`: store the one text event's row. -/
def handle_message (st : BridgeState) (room_id : String) (e : MEvent) :
    BridgeState :=
  { st with
    db := st.db ++ [store_message_in_db st.store_content room_id
      (eventSender e) e.body (eventOriginTs e) "RoomMessageText"] }

/-- Python `self.last_sync_time or 0`: `None` and `0` are falsy. -/
def pyIntOrZero : Option Int → Int
  | none => 0
  | some x => if x == 0 then 0 else x

/-- `MatrixInfluxBridge.message_callback`: on a text event, store it, raise
the global watermark to `max(event.server_timestamp, self.last_sync_time or
0)` and call `save_sync_state`; any other event kind is ignored. -/
def message_callback (st : BridgeState) (room_id : String) (ev : REvent) :
    BridgeState :=
  match ev with
  | REvent.nonText _ => st
  | REvent.text e =>
    let st1 := handle_message st room_id e
    saveSyncStateS
      { st1 with
        last_sync_time :=
          some (max e.server_timestamp (pyIntOrZero st1.last_sync_time)) }

/-- `MatrixInfluxBridge.__init__` state setup followed by `load_sync_state`:
`room_sync_times` starts from the file (empty on missing/corrupt),
`last_sync_time` starts `None` unconditionally — nothing reads it back. -/
def initBridge (store_content : Bool) (f : FileState) :
    Except PyExc BridgeState :=
  match load_sync_state f with
  | Except.error e => Except.error e
  | Except.ok (m, _) =>
    Except.ok
      { store_content := store_content
        room_sync_times := m
        last_sync_time := none
        file := f
        db := [] }

/-- Outcome of one `await self.matrix_client.room_messages(...)` call:
a `RoomMessagesResponse` carrying the page `chunk` and continuation token
`end`, some other (failure) response object, or a raised exception. -/
inductive FetchResult where
  | ok : List REvent → String → FetchResult
  | other : String → FetchResult
  | exn : PyExc → FetchResult

/-- The homeserver as the backfill sees it: a response for each
`(room_id, start)` pair. -/
def Server := String → Option String → FetchResult

/-- The `start` argument of the fetch (lines 112, 124): `None` when the stored
value is missing or falsy, else `str(last_sync)`. -/
def startToken (last_sync : Option Json) : Option String :=
  match last_sync with
  | none => none
  | some j => if jsonTruthy j then some (pyStr j) else none

/-- The inner `for event in response.chunk` loop: store each text event's row
in order, ignore every other event kind. -/
def storeChunk (store_content : Bool) (room_id : String) (db : List Message) :
    List REvent → List Message
  | [] => db
  | REvent.text e :: rest =>
    storeChunk store_content room_id
      (db ++ [store_message_in_db store_content room_id (eventSender e) e.body
        (eventOriginTs e) "RoomMessageText"]) rest
  | REvent.nonText _ :: rest => storeChunk store_content room_id db rest

/-- The row stored for one text event of a page. -/
def rowOf (store_content : Bool) (room_id : String) : REvent → Option Message
  | REvent.text e =>
    some (store_message_in_db store_content room_id (eventSender e) e.body
      (eventOriginTs e) "RoomMessageText")
  | REvent.nonText _ => none

theorem storeChunk_eq (sc : Bool) (r : String) (db : List Message)
    (chunk : List REvent) :
    storeChunk sc r db chunk = db ++ chunk.filterMap (rowOf sc r) := by
  induction chunk generalizing db with
  | nil => simp [storeChunk]
  | cons ev rest ih =>
    cases ev with
    | text e => simp [storeChunk, rowOf, ih]
    | nonText k => simp [storeChunk, rowOf, ih]

/-- The body of `fetch_historical_messages` for one room: one
`room_messages` call; on a `RoomMessagesResponse`, store the page's text
events and — only when the chunk is non-empty — set the room's watermark to
`response.end` and persist; on any other response object, log and move on; a
raised exception is re-raised (`raise` in the `except` clause).  Returns the
new state, the fetch call made, and the escaping exception if any. -/
def processRoom (server : Server) (st : BridgeState) (room_id : String) :
    BridgeState × (String × Option String) × Option PyExc :=
  let start := startToken (dictGet st.room_sync_times room_id)
  match server room_id start with
  | FetchResult.exn e => (st, (room_id, start), some e)
  | FetchResult.other _ => (st, (room_id, start), none)
  | FetchResult.ok chunk endTok =>
    let st1 := { st with db := storeChunk st.store_content room_id st.db chunk }
    let st2 :=
      if chunk.isEmpty then st1
      else
        let m := dictSet st1.room_sync_times room_id (Json.jstr endTok)
        { st1 with room_sync_times := m, file := save_sync_state m }
    (st2, (room_id, start), none)

/-- Result of a backfill pass: final state, the trace of `room_messages`
calls made, and the exception that aborted the pass, if any. -/
structure RunResult where
  st : BridgeState
  fetches : List (String × Option String)
  err : Option PyExc

/-- `MatrixInfluxBridge.fetch_historical_messages`: one pass over the
monitored rooms in iteration order, one page fetch per room; the first raised
exception aborts the remainder of the pass. -/
def fetch_historical_messages (server : Server) (st : BridgeState) :
    List String → RunResult
  | [] => ⟨st, [], none⟩
  | r :: rest =>
    match processRoom server st r with
    | (st1, call, some e) => ⟨st1, [call], some e⟩
    | (st1, call, none) =>
      let res := fetch_historical_messages server st1 rest
      ⟨res.st, call :: res.fetches, res.err⟩

/-- A homeserver with two pages of history for room `!r:hs`: fetching from
the start yields one text event and token `p1`; fetching from `p1` yields a
second text event and token `p2`. -/
def twoPageServer : Server := fun r start =>
  if r = "!r:hs" then
    match start with
    | none =>
      FetchResult.ok [REvent.text ⟨"@a:hs", "m1", 1, none, none⟩] "p1"
    | some s =>
      if s = "p1" then
        FetchResult.ok [REvent.text ⟨"@b:hs", "m2", 2, none, none⟩] "p2"
      else FetchResult.ok [] "p2"
  else FetchResult.ok [] ""

theorem processRoom_room (server : Server) (st : BridgeState) (r : String) :
    (processRoom server st r).2.1.1 = r := by
  unfold processRoom
  dsimp only
  split <;> rfl

/-- Appending room lists composes backfill passes, with an error in the first
part short-circuiting the second. -/
theorem fetch_append (server : Server) (st : BridgeState) (xs ys : List String) :
    fetch_historical_messages server st (xs ++ ys) =
      match (fetch_historical_messages server st xs).err with
      | some _ => fetch_historical_messages server st xs
      | none =>
        ⟨(fetch_historical_messages server
            (fetch_historical_messages server st xs).st ys).st,
         (fetch_historical_messages server st xs).fetches ++
           (fetch_historical_messages server
             (fetch_historical_messages server st xs).st ys).fetches,
         (fetch_historical_messages server
           (fetch_historical_messages server st xs).st ys).err⟩ := by
  induction xs generalizing st with
  | nil => simp [fetch_historical_messages]
  | cons r rest ih =>
    rcases hpr : processRoom server st r with ⟨st1, call, err⟩
    cases err with
    | some e => simp [fetch_historical_messages, hpr]
    | none =>
      cases h2 : (fetch_historical_messages server st1 rest).err with
      | some e2 => simp [fetch_historical_messages, hpr, ih, h2]
      | none => simp [fetch_historical_messages, hpr, ih, h2]

/-- C1 -- Round-trip resume correctness: for every in-memory mapping from room
ids to stored cursors, `save_sync_state` followed by `load_sync_state` returns
exactly the same mapping (so a restart reads back, for each room, the last
watermark written for it). -/
theorem save_load_round_trip (m : SyncMap) :
    load_sync_state (save_sync_state m) =
      Except.ok (m, m.map (fun _ => LogLevel.info)) := rfl

/-- C5 -- Cold start never raises: `load_sync_state` on a missing file and on
an unparsable file both succeed with the empty mapping, and of the two only
the unparsable case logs a warning. -/
theorem load_sync_state_cold_start :
    load_sync_state FileState.missing = Except.ok ([], [LogLevel.info]) ∧
    load_sync_state FileState.corrupt = Except.ok ([], [LogLevel.warning]) ∧
    LogLevel.warning ∉ [LogLevel.info] := by
  refine ⟨rfl, rfl, ?_⟩
  decide

/-- C8 -- Room selection: a non-empty explicit room-id list is monitored
verbatim as a set; an empty list monitors exactly the rooms the client
currently knows of. -/
theorem monitoredRooms_spec (room_ids clientRooms : List String) (r : String) :
    (room_ids ≠ [] → (r ∈ monitoredRooms room_ids clientRooms ↔ r ∈ room_ids)) ∧
    (room_ids = [] → (r ∈ monitoredRooms room_ids clientRooms ↔ r ∈ clientRooms)) := by
  constructor
  · intro h
    simp [monitoredRooms, List.isEmpty_iff, h]
  · intro h
    simp [monitoredRooms, h]

/-- Closed instance of `monitoredRooms_spec`, both branches. -/
theorem monitoredRooms_spec_witness :
    ("!a:hs" ∈ monitoredRooms ["!a:hs"] ["!b:hs"] ↔ "!a:hs" ∈ ["!a:hs"]) ∧
    ("!b:hs" ∈ monitoredRooms [] ["!b:hs"] ↔ "!b:hs" ∈ ["!b:hs"]) :=
  ⟨(monitoredRooms_spec ["!a:hs"] ["!b:hs"] "!a:hs").1 (List.cons_ne_nil _ _),
   (monitoredRooms_spec [] ["!b:hs"] "!b:hs").2 rfl⟩

/-- C4 -- Content retention: with the retention flag off, the stored row's
`content` is `None` (never an empty string) and its `content_length` is the
raw body's length; with the flag on, `content` is exactly the body and
`content_length` is unchanged.  The same holds of the InfluxDB point builder:
the `content` field is present exactly when the flag is on, and
`content_length` is always the body's length. -/
theorem content_retention (room sender msg mt : String) (ts : Int)
    (rid : String) (e : MEvent) :
    (store_message_in_db false room sender msg ts mt).content = none ∧
    (store_message_in_db false room sender msg ts mt).content_length = msg.length ∧
    (store_message_in_db true room sender msg ts mt).content = some msg ∧
    (store_message_in_db true room sender msg ts mt).content_length = msg.length ∧
    (buildInfluxPoint false rid e).fields.lookup "content" = none ∧
    (buildInfluxPoint false rid e).fields.lookup "content_length" =
      some (FieldVal.i (Int.ofNat e.body.length)) ∧
    (buildInfluxPoint true rid e).fields.lookup "content" =
      some (FieldVal.s e.body) ∧
    (buildInfluxPoint true rid e).fields.lookup "content_length" =
      some (FieldVal.i (Int.ofNat e.body.length)) := by
  refine ⟨rfl, rfl, rfl, rfl, ?_, ?_, ?_, ?_⟩ <;>
    simp [buildInfluxPoint, List.lookup]

/-- C9 -- Timestamp derivation: every stored row (live path and backfill
path, and the InfluxDB point's time) carries the millisecond stamp
`eventOriginTs`, which is the event's `origin_server_ts` when that key is in
the raw source and falls back to the event object's `server_timestamp` only
when it is absent. -/
theorem timestamp_derivation (st : BridgeState) (room : String) (e : MEvent)
    (t : Int) :
    (handle_message st room e).db.map Message.timestampMs =
      st.db.map Message.timestampMs ++ [eventOriginTs e] ∧
    (rowOf st.store_content room (REvent.text e)).map Message.timestampMs =
      some (eventOriginTs e) ∧
    (buildInfluxPoint st.store_content room e).timeMs = eventOriginTs e ∧
    (e.src_origin_server_ts = some t → eventOriginTs e = t) ∧
    (e.src_origin_server_ts = none → eventOriginTs e = e.server_timestamp) := by
  refine ⟨?_, rfl, rfl, ?_, ?_⟩
  · simp [handle_message, store_message_in_db]
  · intro h; simp [eventOriginTs, h]
  · intro h; simp [eventOriginTs, h]

/-- Closed instance of `timestamp_derivation`: the fallback fires exactly when
`origin_server_ts` is absent from the raw source. -/
theorem timestamp_derivation_witness :
    eventOriginTs ⟨"@u:hs", "hi", 5, none, some 7⟩ = 7 ∧
    eventOriginTs ⟨"@u:hs", "hi", 5, none, none⟩ = 5 :=
  ⟨(timestamp_derivation ⟨true, [], none, FileState.missing, []⟩ "!r:hs"
      ⟨"@u:hs", "hi", 5, none, some 7⟩ 7).2.2.2.1 rfl,
   (timestamp_derivation ⟨true, [], none, FileState.missing, []⟩ "!r:hs"
      ⟨"@u:hs", "hi", 5, none, none⟩ 0).2.2.2.2 rfl⟩

theorem pyIntOrZero_eq_getD (o : Option Int) : pyIntOrZero o = o.getD 0 := by
  cases o with
  | none => rfl
  | some x =>
    simp only [pyIntOrZero, Option.getD_some, beq_iff_eq]
    by_cases h : x = 0 <;> simp [h]

/-- C10 -- Live watermark monotone: a text event moves `last_sync_time` to
the maximum of the event's server timestamp and the previous value (an unset
value counting as 0), so it never decreases. -/
theorem last_sync_time_monotone (st : BridgeState) (room : String)
    (e : MEvent) :
    (message_callback st room (REvent.text e)).last_sync_time =
      some (max e.server_timestamp (st.last_sync_time.getD 0)) ∧
    st.last_sync_time.getD 0 ≤
      ((message_callback st room (REvent.text e)).last_sync_time).getD 0 := by
  have hval : (message_callback st room (REvent.text e)).last_sync_time =
      some (max e.server_timestamp (st.last_sync_time.getD 0)) := by
    simp [message_callback, handle_message, saveSyncStateS, pyIntOrZero_eq_getD]
  refine ⟨hval, ?_⟩
  rw [hval]
  simp [le_max_iff]

/-- C2 -- Empty-page watermark frame: when the page fetch for a room returns
a `RoomMessagesResponse`, an empty chunk leaves the room's watermark mapping
and the resume-state file exactly as they were, while a non-empty chunk sets
the room's entry to the page's `end` token and persists the updated mapping. -/
theorem empty_page_frame (server : Server) (st : BridgeState) (r : String)
    (chunk : List REvent) (endTok : String)
    (hok : server r (startToken (dictGet st.room_sync_times r)) =
      FetchResult.ok chunk endTok) :
    (chunk = [] →
      (processRoom server st r).1.room_sync_times = st.room_sync_times ∧
      (processRoom server st r).1.file = st.file) ∧
    (chunk ≠ [] →
      (processRoom server st r).1.room_sync_times =
        dictSet st.room_sync_times r (Json.jstr endTok) ∧
      (processRoom server st r).1.file =
        save_sync_state (dictSet st.room_sync_times r (Json.jstr endTok))) := by
  constructor
  · intro h
    subst h
    simp [processRoom, hok]
  · intro h
    simp [processRoom, hok, List.isEmpty_iff, h]

/-- C7, as stated, is false: `save_sync_state` writes only
`self.room_sync_times`, so the updated `last_sync_time` never reaches the
resume-state file and a restarted bridge starts with `last_sync_time = None`.
Concretely: a live text event with server timestamp 5 raises the in-memory
watermark to 5, yet the file written by the callback is the unchanged (empty)
per-room mapping, and re-initialising from that file gives an unset global
watermark, not 5. -/
theorem live_watermark_not_persisted_cex :
    (message_callback ⟨true, [], none, FileState.contents (Json.jobj []), []⟩
        "!r:hs" (REvent.text ⟨"@u:hs", "hi", 5, none, none⟩)).last_sync_time =
      some 5 ∧
    (message_callback ⟨true, [], none, FileState.contents (Json.jobj []), []⟩
        "!r:hs" (REvent.text ⟨"@u:hs", "hi", 5, none, none⟩)).file =
      FileState.contents (Json.jobj []) ∧
    initBridge true
        (message_callback ⟨true, [], none, FileState.contents (Json.jobj []), []⟩
          "!r:hs" (REvent.text ⟨"@u:hs", "hi", 5, none, none⟩)).file =
      Except.ok
        ⟨true, [], none, FileState.contents (Json.jobj []), []⟩ ∧
    (none : Option Int) ≠ some 5 := by
  refine ⟨rfl, rfl, rfl, ?_⟩
  simp

/-- C7 amended: after every successfully written live text event the
in-memory global watermark is updated (to the max of the event's server
timestamp and the previous value) and `save_sync_state` immediately rewrites
the resume-state file — but the file receives only the per-room cursor
mapping, the global watermark itself is never written to it, and every
restarted bridge begins with `last_sync_time` unset. -/
theorem live_watermark_amended (st : BridgeState) (room : String) (e : MEvent)
    (sc : Bool) (f : FileState) (b : BridgeState)
    (hinit : initBridge sc f = Except.ok b) :
    (message_callback st room (REvent.text e)).last_sync_time =
      some (max e.server_timestamp (st.last_sync_time.getD 0)) ∧
    (message_callback st room (REvent.text e)).file =
      save_sync_state st.room_sync_times ∧
    b.last_sync_time = none := by
  refine ⟨?_, ?_, ?_⟩
  · simp [message_callback, handle_message, saveSyncStateS, pyIntOrZero_eq_getD]
  · simp [message_callback, handle_message, saveSyncStateS]
  · unfold initBridge at hinit
    cases hload : load_sync_state f with
    | error ex => rw [hload] at hinit; exact absurd hinit (by simp)
    | ok p =>
      rw [hload] at hinit
      cases hinit
      rfl

/-- Closed instance of `live_watermark_amended`. -/
theorem live_watermark_amended_witness :
    (message_callback ⟨true, [], some 3, FileState.missing, []⟩ "!r:hs"
        (REvent.text ⟨"@u:hs", "hi", 5, none, none⟩)).last_sync_time =
      some (max 5 ((some (3 : Int)).getD 0)) ∧
    (message_callback ⟨true, [], some 3, FileState.missing, []⟩ "!r:hs"
        (REvent.text ⟨"@u:hs", "hi", 5, none, none⟩)).file =
      save_sync_state [] ∧
    (⟨true, [], none, FileState.missing, []⟩ : BridgeState).last_sync_time =
      none :=
  live_watermark_amended ⟨true, [], some 3, FileState.missing, []⟩ "!r:hs"
    ⟨"@u:hs", "hi", 5, none, none⟩ true FileState.missing
    ⟨true, [], none, FileState.missing, []⟩ rfl

/-- Closed instance of `empty_page_frame`, both branches: one server answering
an empty page (state untouched), one answering a one-event page (watermark set
to the page's end token and persisted). -/
theorem empty_page_frame_witness :
    ((processRoom (fun _ _ => FetchResult.ok [] "t9")
        ⟨true, [("!r:hs", Json.jstr "t0")], none,
          FileState.contents (Json.jobj [("!r:hs", Json.jstr "t0")]), []⟩
        "!r:hs").1.room_sync_times = [("!r:hs", Json.jstr "t0")] ∧
      (processRoom (fun _ _ => FetchResult.ok [] "t9")
        ⟨true, [("!r:hs", Json.jstr "t0")], none,
          FileState.contents (Json.jobj [("!r:hs", Json.jstr "t0")]), []⟩
        "!r:hs").1.file =
        FileState.contents (Json.jobj [("!r:hs", Json.jstr "t0")])) ∧
    ((processRoom
        (fun _ _ =>
          FetchResult.ok [REvent.text ⟨"@u:hs", "hi", 5, none, none⟩] "t9")
        ⟨true, [("!r:hs", Json.jstr "t0")], none,
          FileState.contents (Json.jobj [("!r:hs", Json.jstr "t0")]), []⟩
        "!r:hs").1.room_sync_times = [("!r:hs", Json.jstr "t9")] ∧
      (processRoom
        (fun _ _ =>
          FetchResult.ok [REvent.text ⟨"@u:hs", "hi", 5, none, none⟩] "t9")
        ⟨true, [("!r:hs", Json.jstr "t0")], none,
          FileState.contents (Json.jobj [("!r:hs", Json.jstr "t0")]), []⟩
        "!r:hs").1.file =
        save_sync_state [("!r:hs", Json.jstr "t9")]) := by
  constructor
  · exact (empty_page_frame _ _ "!r:hs" [] "t9" rfl).1 rfl
  · have h := (empty_page_frame
      (fun _ _ =>
        FetchResult.ok [REvent.text ⟨"@u:hs", "hi", 5, none, none⟩] "t9")
      ⟨true, [("!r:hs", Json.jstr "t0")], none,
        FileState.contents (Json.jobj [("!r:hs", Json.jstr "t0")]), []⟩
      "!r:hs" [REvent.text ⟨"@u:hs", "hi", 5, none, none⟩] "t9" rfl).2
      (by simp)
    simpa [dictSet] using h

/-- C3, as stated, is false: the backfill pass makes exactly one
`room_messages` call per room and never loops, so it does not drain a room's
available history.  Concretely, against `twoPageServer` (two pages of one text
event each) a pass over `!r:hs` completes without error after a single fetch,
emits only the first page's message `m1`, and the continuation cursor it
persisted still has a further non-empty page (containing `m2`) available —
`m2` is never emitted. -/
theorem backfill_not_exhaustive_cex :
    (fetch_historical_messages twoPageServer
        ⟨true, [], none, FileState.missing, []⟩ ["!r:hs"]).err = none ∧
    (fetch_historical_messages twoPageServer
        ⟨true, [], none, FileState.missing, []⟩ ["!r:hs"]).fetches =
      [("!r:hs", none)] ∧
    (fetch_historical_messages twoPageServer
        ⟨true, [], none, FileState.missing, []⟩ ["!r:hs"]).st.db.map
        Message.content = [some "m1"] ∧
    twoPageServer "!r:hs"
        (startToken (dictGet
          (fetch_historical_messages twoPageServer
            ⟨true, [], none, FileState.missing, []⟩ ["!r:hs"]).st.room_sync_times
          "!r:hs")) =
      FetchResult.ok [REvent.text ⟨"@b:hs", "m2", 2, none, none⟩] "p2" ∧
    some "m2" ∉
      (fetch_historical_messages twoPageServer
        ⟨true, [], none, FileState.missing, []⟩ ["!r:hs"]).st.db.map
        Message.content := by
  refine ⟨rfl, rfl, rfl, rfl, ?_⟩
  simp [fetch_historical_messages, processRoom, twoPageServer, startToken,
    dictGet, dictSet, storeChunk, store_message_in_db]

/-- C3 amended: one backfill pass performs exactly one page fetch per
monitored room, in iteration order (when no fetch raises), emitting for each
successfully fetched page exactly the text-type rows of that single page and
advancing the room's watermark to that page's end token when the page is
non-empty; it does not fetch further pages of a room's history. -/
theorem backfill_single_page (server : Server) (st : BridgeState)
    (rooms : List String)
    (h : (fetch_historical_messages server st rooms).err = none) :
    (fetch_historical_messages server st rooms).fetches.map Prod.fst = rooms ∧
    ∀ r chunk endTok,
      server r (startToken (dictGet st.room_sync_times r)) =
        FetchResult.ok chunk endTok →
      (processRoom server st r).1.db =
        st.db ++ chunk.filterMap (rowOf st.store_content r) := by
  constructor
  · induction rooms generalizing st with
    | nil => rfl
    | cons r rest ih =>
      rcases hpr : processRoom server st r with ⟨st1, call, err⟩
      have hr : call.1 = r := by
        have := processRoom_room server st r
        rw [hpr] at this
        exact this
      cases err with
      | some e =>
        rw [fetch_historical_messages] at h
        simp [hpr] at h
      | none =>
        rw [fetch_historical_messages] at h ⊢
        simp only [hpr] at h ⊢
        simp only [List.map_cons, hr]
        have := ih st1 h
        rw [this]
  · intro r chunk endTok hok
    unfold processRoom
    dsimp only
    rw [hok]
    dsimp only
    rw [storeChunk_eq]
    split <;> rfl

/-- Closed instance of `backfill_single_page`. -/
theorem backfill_single_page_witness :
    (fetch_historical_messages twoPageServer
        ⟨true, [], none, FileState.missing, []⟩ ["!r:hs"]).fetches.map
        Prod.fst = ["!r:hs"] ∧
    (processRoom twoPageServer ⟨true, [], none, FileState.missing, []⟩
        "!r:hs").1.db =
      [] ++ [REvent.text ⟨"@a:hs", "m1", 1, none, none⟩].filterMap
        (rowOf true "!r:hs") :=
  ⟨(backfill_single_page twoPageServer
      ⟨true, [], none, FileState.missing, []⟩ ["!r:hs"] rfl).1,
   (backfill_single_page twoPageServer
      ⟨true, [], none, FileState.missing, []⟩ ["!r:hs"] rfl).2 "!r:hs"
      [REvent.text ⟨"@a:hs", "m1", 1, none, none⟩] "p1" rfl⟩

/-- C6 -- Fail-fast backfill: if, after some prefix of the monitored rooms
has been processed without a raised exception, the page fetch for the next
room raises, then the whole pass ends with that exception re-raised, the
state is exactly what it was before the failing room (no writes for it or
for any later room), and the trace shows exactly one fetch attempt for the
failing room and none for the rooms after it. -/
theorem backfill_fail_fast (server : Server) (st : BridgeState)
    (pre : List String) (r : String) (post : List String) (e : PyExc)
    (hpre : (fetch_historical_messages server st pre).err = none)
    (herr : server r (startToken (dictGet
        (fetch_historical_messages server st pre).st.room_sync_times r)) =
      FetchResult.exn e) :
    (fetch_historical_messages server st (pre ++ r :: post)).err = some e ∧
    (fetch_historical_messages server st (pre ++ r :: post)).st =
      (fetch_historical_messages server st pre).st ∧
    (fetch_historical_messages server st (pre ++ r :: post)).fetches =
      (fetch_historical_messages server st pre).fetches ++
        [(r, startToken (dictGet
          (fetch_historical_messages server st pre).st.room_sync_times r))] := by
  have hap := fetch_append server st pre (r :: post)
  rw [hpre] at hap
  have hmid :
      fetch_historical_messages server
        (fetch_historical_messages server st pre).st (r :: post) =
      ⟨(fetch_historical_messages server st pre).st,
       [(r, startToken (dictGet
         (fetch_historical_messages server st pre).st.room_sync_times r))],
       some e⟩ := by
    rw [fetch_historical_messages]
    have hpr : processRoom server
        (fetch_historical_messages server st pre).st r =
        ((fetch_historical_messages server st pre).st,
         (r, startToken (dictGet
           (fetch_historical_messages server st pre).st.room_sync_times r)),
         some e) := by
      unfold processRoom
      dsimp only
      rw [herr]
    rw [hpr]
  rw [hap, hmid]
  exact ⟨rfl, rfl, rfl⟩

/-- Closed instance of `backfill_fail_fast`: room `!a` succeeds with an empty
page, room `!b` raises, room `!c` is never fetched. -/
theorem backfill_fail_fast_witness :
    (fetch_historical_messages
        (fun r _ =>
          if r = "!b" then FetchResult.exn (PyExc.matrixError "boom")
          else FetchResult.ok [] "tok")
        ⟨true, [], none, FileState.missing, []⟩ (["!a"] ++ "!b" :: ["!c"])).err =
      some (PyExc.matrixError "boom") ∧
    (fetch_historical_messages
        (fun r _ =>
          if r = "!b" then FetchResult.exn (PyExc.matrixError "boom")
          else FetchResult.ok [] "tok")
        ⟨true, [], none, FileState.missing, []⟩ (["!a"] ++ "!b" :: ["!c"])).st =
      (fetch_historical_messages
        (fun r _ =>
          if r = "!b" then FetchResult.exn (PyExc.matrixError "boom")
          else FetchResult.ok [] "tok")
        ⟨true, [], none, FileState.missing, []⟩ ["!a"]).st ∧
    (fetch_historical_messages
        (fun r _ =>
          if r = "!b" then FetchResult.exn (PyExc.matrixError "boom")
          else FetchResult.ok [] "tok")
        ⟨true, [], none, FileState.missing, []⟩ (["!a"] ++ "!b" :: ["!c"])).fetches =
      (fetch_historical_messages
        (fun r _ =>
          if r = "!b" then FetchResult.exn (PyExc.matrixError "boom")
          else FetchResult.ok [] "tok")
        ⟨true, [], none, FileState.missing, []⟩ ["!a"]).fetches ++
        [("!b", startToken (dictGet
          (fetch_historical_messages
            (fun r _ =>
              if r = "!b" then FetchResult.exn (PyExc.matrixError "boom")
              else FetchResult.ok [] "tok")
            ⟨true, [], none, FileState.missing, []⟩
            ["!a"]).st.room_sync_times "!b"))] :=
  backfill_fail_fast
    (fun r _ =>
      if r = "!b" then FetchResult.exn (PyExc.matrixError "boom")
      else FetchResult.ok [] "tok")
    ⟨true, [], none, FileState.missing, []⟩ ["!a"] "!b" ["!c"]
    (PyExc.matrixError "boom") rfl rfl
